import Mathlib

/-
Verification of the PacketRaven core against its specification.

Shallow embedding conventions:
- f64 values are modelled as rationals (the operations the claims exercise are
  addition, subtraction, multiplication, division, absolute value and
  comparison, which the source applies to values far from the limits of f64
  precision);
- timestamps are modelled at whole-second resolution as integers, and chrono
  durations as integer numbers of seconds (or of milliseconds where the source
  constructs a duration from milliseconds);
- the Rust cast `as i64` truncates toward zero and is modelled by f64_as_i64;
- fallible code returns Except; a Rust panic (an `unwrap` of an error value)
  is modelled by a distinguished outcome, never silently converted to an
  error result.
-/

namespace PacketRaven

/-- Absolute value of a rational, written so that the kernel evaluates it. -/
def ratAbs (q : ℚ) : ℚ :=
  if q < 0 then -q else q

theorem ratAbs_eq_abs (q : ℚ) : ratAbs q = |q| := by
  unfold ratAbs
  by_cases h : q < 0
  · rw [if_pos h, abs_of_neg h]
  · rw [if_neg h, abs_of_nonneg (le_of_not_lt h)]

/-- Tolerance comparison from src/utilities.rs: p = 10^(-decimal_precision), test |a - b| < p. -/
def approx_equal (a b : ℚ) (decimal_precision : ℕ) : Bool :=
  ratAbs (a - b) < (1 : ℚ) / 10 ^ decimal_precision

/-- Truncating cast of a float to i64 (rounds toward zero): the ceiling of a
negative value, the floor of a nonnegative one. -/
def f64_as_i64 (q : ℚ) : ℤ :=
  if q < 0 then ⌈q⌉ else ⌊q⌋

/-- Packet status tag from src/location/mod.rs. -/
inductive PacketStatus
  | Duplicate
  | TimeLaggedDuplicate
  | None
deriving DecidableEq

/-- Location from src/location/mod.rs: zoned timestamp, coordinate, optional altitude. -/
structure Location where
  time : ℤ
  x : ℚ
  y : ℚ
  altitude : Option ℚ
deriving DecidableEq

/-- Custom PartialEq impl for Location: identical times, coordinates within 1e-4,
and altitudes within 1e-4 when both present (two absent altitudes match; one
absent altitude does not match a present one). -/
def locEq (a b : Location) : Bool :=
  a.time == b.time &&
  approx_equal a.x b.x 4 &&
  approx_equal a.y b.y 4 &&
  match a.altitude, b.altitude with
  | some alt, some other_alt => approx_equal alt other_alt 4
  | none, none => true
  | _, _ => false

/-- Location::time_lag_of: differing times, coordinates within 1e-4, and both
altitudes present and within 1e-4 (an absent altitude on either side fails). -/
def time_lag_of (a b : Location) : Bool :=
  a.time != b.time &&
  approx_equal a.x b.x 4 &&
  approx_equal a.y b.y 4 &&
  match a.altitude, b.altitude with
  | some alt, some other_alt => approx_equal alt other_alt 4
  | _, _ => false

/-- BalloonData from src/location/mod.rs. Of the source fields only callsign and
status are kept: aprs_packet, ais, source and raw are structured payload or
provenance fields no claim references. The derived equality on this structure
mirrors the derived PartialEq of the source restricted to the kept fields. -/
structure BalloonData where
  callsign : Option String
  status : PacketStatus
deriving DecidableEq

/-- BalloonLocation from src/location/mod.rs. -/
structure BalloonLocation where
  location : Location
  data : BalloonData
deriving DecidableEq

/-- Derived PartialEq of BalloonLocation: the custom Location equality on the
location field, field-by-field equality on the data field. -/
def recordEq (a b : BalloonLocation) : Bool :=
  locEq a.location b.location && a.data == b.data

/-- BalloonTrack from src/location/track/mod.rs. -/
structure BalloonTrack where
  locations : List BalloonLocation
  prediction : Option (List BalloonLocation)
  name : String

/-- BalloonTrack::new. -/
def BalloonTrack.new (name : String) : BalloonTrack :=
  { locations := [], prediction := none, name }

/-- BalloonTrack::contains: linear scan with the derived BalloonLocation equality. -/
def BalloonTrack.contains (t : BalloonTrack) (location : BalloonLocation) : Bool :=
  t.locations.any (fun existing_location => recordEq location existing_location)

/-- Stable insertion of a record into a time-sorted list: the new record goes
after every record whose time does not exceed its own, matching the stable
sort the source uses. -/
def insertByTime (x : BalloonLocation) : List BalloonLocation → List BalloonLocation
  | [] => [x]
  | y :: ys =>
    if y.location.time ≤ x.location.time then y :: insertByTime x ys
    else x :: y :: ys

/-- Model of Vec::sort_by_key(|location| location.location.time): a stable sort
ascending by time. -/
def sortByTime : List BalloonLocation → List BalloonLocation
  | [] => []
  | y :: ys => insertByTime y (sortByTime ys)

/-- BalloonTrack::push: skip if an equal record is already present; otherwise
append, and re-sort the whole sequence by time when the appended record is
older than the previous last record. -/
def BalloonTrack.push (t : BalloonTrack) (location : BalloonLocation) : BalloonTrack :=
  if t.contains location then t
  else
    let needs_sorting :=
      match t.locations.getLast? with
      | some current => decide (location.location.time < current.location.time)
      | none => false
    let pushed := t.locations ++ [location]
    { t with locations := if needs_sorting then sortByTime pushed else pushed }

/-- The sortedness predicate the order invariant speaks about: adjacent times
ascending, expressed as pairwise order. -/
def sortedByTime (locations : List BalloonLocation) : Prop :=
  locations.Pairwise (fun a b => a.location.time ≤ b.location.time)

instance sortedByTime.dec (locations : List BalloonLocation) : Decidable (sortedByTime locations) :=
  List.instDecidablePairwise locations

/-- Per-record classification step of retrieve_locations (src/retrieve.rs lines
93-99): an equal existing record marks Duplicate, else a time-lagged existing
record marks TimeLaggedDuplicate, else the running status is kept. -/
def classify_step (p : BalloonLocation) (st : PacketStatus) (existing : BalloonLocation) : PacketStatus :=
  if recordEq p existing then PacketStatus.Duplicate
  else if time_lag_of p.location existing.location then PacketStatus.TimeLaggedDuplicate
  else st

/-- The full classification loop over the existing records of the target track,
starting from the status the packet arrived with. -/
def classify_status (track : List BalloonLocation) (p : BalloonLocation) : PacketStatus :=
  track.foldl (classify_step p) p.data.status

/-- Ingestion decision of retrieve_locations (src/retrieve.rs lines 101-123):
Duplicate and TimeLaggedDuplicate records are dropped, any other record is
pushed into the track carrying its classified status. -/
def ingest (t : BalloonTrack) (p : BalloonLocation) : BalloonTrack :=
  let status := classify_status t.locations p
  let classified := { p with data := { p.data with status := status } }
  match status with
  | PacketStatus.Duplicate => t
  | PacketStatus.TimeLaggedDuplicate => t
  | PacketStatus.None => t.push classified

/-- with_altitude from src/location/track/mod.rs: keep the records carrying an altitude. -/
def with_altitude (locations : List BalloonLocation) : List BalloonLocation :=
  locations.filter (fun location => location.location.altitude.isSome)

/-- intervals: consecutive time deltas, in seconds (Duration::num_seconds is exact
at the whole-second resolution of the model). -/
def intervals (locations : List BalloonLocation) : List ℤ :=
  List.zipWith (fun current next => next.location.time - current.location.time)
    locations locations.tail

/-- altitudes: the defined altitudes in order. -/
def altitudes (locations : List BalloonLocation) : List ℚ :=
  locations.filterMap (fun location => location.location.altitude)

/-- ascents: consecutive altitude deltas. The source unwraps the altitude of both
endpoints; it only ever applies this to altitude-bearing lists, and the unwrap is
modelled by a default of 0. -/
def ascents (locations : List BalloonLocation) : List ℚ :=
  List.zipWith
    (fun current next => next.location.altitude.getD 0 - current.location.altitude.getD 0)
    locations locations.tail

/-- ascent_rates: altitude delta over time delta between consecutive
altitude-bearing records. The source divides in f64 and then discards non-finite
values; a quotient of finite inputs is non-finite exactly when the interval is
zero, so the model skips those quotients directly. -/
def ascent_rates (locations : List BalloonLocation) : List ℚ :=
  let locations_with_altitude := with_altitude locations
  (List.zip (ascents locations_with_altitude) (intervals locations_with_altitude)).filterMap
    (fun p => if p.2 = 0 then none else some (p.1 / (p.2 : ℚ)))

/-- BalloonTrack::ascending on a location sequence: the last (up to) two ascent
rates are all above 0.2 m/s; an empty iterator makes the test vacuously true. -/
def ascending (locations : List BalloonLocation) : Bool :=
  ((ascent_rates locations).reverse.take 2).all (fun a => (1 : ℚ)/5 < a)

/-- BalloonTrack::descending on a location sequence: the last (up to) two ascent
rates are all below 0.2 m/s; an empty iterator makes the test vacuously true. -/
def descending (locations : List BalloonLocation) : Bool :=
  ((ascent_rates locations).reverse.take 2).all (fun a => a < (1 : ℚ)/5)

/-- FreefallEstimate from src/model.rs. The time_to_ground field of the source
(1695.02 * atan(9.8311e-5 * altitude) seconds) is transcendental and referenced
by no claim, so it is omitted from the model. -/
structure FreefallEstimate where
  ascent_rate : ℚ
  ascent_rate_uncertainty : ℚ
deriving DecidableEq

/-- FreefallEstimate::new: ascent_rate = -5.8e-8 * altitude^2 - 6.001, and
ascent_rate_uncertainty = |0.2 * ascent_rate|. -/
def FreefallEstimate.new (altitude : ℚ) : FreefallEstimate :=
  let ascent_rate : ℚ := -(58 / 1000000000) * altitude ^ 2 - 6001 / 1000
  { ascent_rate, ascent_rate_uncertainty := ratAbs ((1 : ℚ)/5 * ascent_rate) }

/-- BalloonLocation::estimate_freefall: the freefall estimate at the altitude of
the record (the source asserts the altitude is present; the call site guards it). -/
def estimate_freefall (location : BalloonLocation) : FreefallEstimate :=
  FreefallEstimate.new (location.location.altitude.getD 0)

/-- BalloonTrack::falling: the last record (the source unwraps it, so a nonempty
track is required) must carry an altitude and the track must be descending; then
the track is in freefall when last_ascent_rate - predicted_rate < uncertainty.
The comparison is exactly the signed comparison of the source. -/
def falling (locations : List BalloonLocation) (h : locations ≠ []) : Option FreefallEstimate :=
  let last_location := locations.getLast h
  if last_location.location.altitude.isSome && descending locations then
    let freefall_estimate := estimate_freefall last_location
    match (ascent_rates locations).getLast? with
    | some last_ascent_rate =>
      if last_ascent_rate - freefall_estimate.ascent_rate < freefall_estimate.ascent_rate_uncertainty
      then some freefall_estimate
      else none
    | none => none
  else none

/-- BalloonTrack::estimated_time_to_ground, in milliseconds: on a nonempty
descending track with more than one altitude sample the source computes
Duration::milliseconds(((-last_ascent_rate / last_altitude) * 1000) as i64).
When the guards pass but no ascent rate exists (all intervals of zero length)
the source panics on unwrap; that unreachable-for-our-inputs case is modelled
as none. -/
def estimated_time_to_ground (locations : List BalloonLocation) : Option ℤ :=
  if !locations.isEmpty && descending locations then
    let alts := altitudes locations
    if 1 < alts.length then
      match (ascent_rates locations).getLast?, alts.getLast? with
      | some last_rate, some last_altitude =>
        some (f64_as_i64 ((-last_rate / last_altitude) * 1000))
      | _, _ => none
    else none
  else none

/-- The estimate the spec describes for the same guarded situation, in
milliseconds: time_to_ground = -(last_altitude / last_ascent_rate) seconds,
the linear extrapolation of the current altitude at the last observed rate. -/
def spec_estimated_time_to_ground (locations : List BalloonLocation) : Option ℤ :=
  if !locations.isEmpty && descending locations then
    let alts := altitudes locations
    if 1 < alts.length then
      match (ascent_rates locations).getLast?, alts.getLast? with
      | some last_rate, some last_altitude =>
        some (f64_as_i64 ((-last_altitude / last_rate) * 1000))
      | _, _ => none
    else none
  else none

/-- FlightProfile from src/prediction/mod.rs; float_duration in seconds. -/
structure FlightProfile where
  ascent_rate : ℚ
  float_altitude : Option ℚ
  float_duration : Option ℤ
  float_uncertainty : ℚ
  burst_altitude : ℚ
  sea_level_descent_rate : ℚ
deriving DecidableEq

/-- FlightProfile::new, with the default float uncertainty of 500 m. -/
def FlightProfile.new (ascent_rate : ℚ) (float_altitude : Option ℚ)
    (float_duration : Option ℤ) (float_uncertainty : Option ℚ)
    (burst_altitude sea_level_descent_rate : ℚ) : FlightProfile :=
  { ascent_rate, float_altitude, float_duration,
    float_uncertainty := float_uncertainty.getD 500,
    burst_altitude, sea_level_descent_rate }

/-- FlightProfile::new_standard. -/
def FlightProfile.new_standard (ascent_rate burst_altitude sea_level_descent_rate : ℚ) :
    FlightProfile :=
  FlightProfile.new ascent_rate none none none burst_altitude sea_level_descent_rate

/-- TawhiriQuery from src/prediction/tawhiri.rs, flattened together with the
BalloonPredictionQuery it wraps; float_start, dataset_time in seconds. -/
structure TawhiriQuery where
  api_url : String
  start : Location
  profile : FlightProfile
  name : Option String
  descent_only : Bool
  float_start : Option ℤ
  dataset_time : Option ℤ
  version : Option ℚ
deriving DecidableEq

/-- TawhiriQuery::new, argument for argument. -/
def TawhiriQuery.new (start : Location) (profile : FlightProfile)
    (dataset_time : Option ℤ) (version : Option ℚ) (name : Option String)
    (descent_only : Bool) (float_start : Option ℤ) : TawhiriQuery :=
  { api_url := "https://api.v2.sondehub.org/tawhiri",
    start, profile, name, descent_only, float_start, dataset_time, version }

/-- TawhiriError from src/prediction/tawhiri.rs. -/
inductive TawhiriError
  | NoFloatStage
  | NoDescentStage
  | HttpError (status : ℕ) (description url : String)
  | ParsingError (message : String)
  | RequestError (message : String)
deriving DecidableEq

/-- Query-side longitude normalization (tawhiri.rs parameters, lines 33-36): the
CUSF API takes longitudes in the 0-360 convention. -/
def normalize_longitude (x : ℚ) : ℚ :=
  if x < 0 then x + 360 else x

/-- Response-side conversion back to signed longitude
(TawhiriLocation::to_balloon_location, lines 383-387). -/
def denormalize_longitude (x : ℚ) : ℚ :=
  if 180 < x then x - 360 else x

/-- Effective float altitude of the parameters method (lines 90-99): the profile
float altitude defaulted to the burst altitude, bumped to launch_altitude + 1
when not above the launch altitude. -/
def effective_float_altitude (q : TawhiriQuery) : ℚ :=
  let base := q.profile.float_altitude.getD q.profile.burst_altitude
  match q.start.altitude with
  | some launch_altitude => if base ≤ launch_altitude then launch_altitude + 1 else base
  | none => base

/-- Derived float start time of the parameters method (lines 103-111), exactly as
the source computes it: launch time plus
(float_altitude - launch_altitude / ascent_rate) seconds, the division applying
to the launch altitude alone. A missing launch altitude defaults to 0. -/
def derived_float_start (q : TawhiriQuery) : ℤ :=
  q.start.time +
    f64_as_i64 (effective_float_altitude q - (q.start.altitude.getD 0) / q.profile.ascent_rate)

/-- The float start used for the stop_datetime parameter: the explicitly supplied
one, or the derived one. -/
def float_start_time (q : TawhiriQuery) : ℤ :=
  q.float_start.getD (derived_float_start q)

/-- The stop_datetime parameter (lines 112-115): float start plus float duration,
present exactly when the profile has a float duration. -/
def stop_datetime (q : TawhiriQuery) : Option ℤ :=
  q.profile.float_duration.map (fun float_duration => float_start_time q + float_duration)

/-- The float start formula as the spec words it: launch_time +
(float_altitude - launch_altitude) / ascent_rate, the altitude difference
divided by the ascent rate, truncated to whole seconds like the source cast. -/
def spec_derived_float_start (q : TawhiriQuery) : ℤ :=
  q.start.time +
    f64_as_i64 ((effective_float_altitude q - q.start.altitude.getD 0) / q.profile.ascent_rate)

/-- TawhiriRequest: the response echo of the requested profile. Its numeric
payload fields are never read by the client logic and are omitted. -/
inductive TawhiriRequest
  | StandardProfile
  | FloatProfile
deriving DecidableEq

/-- One trajectory point of a prediction stage. -/
structure TawhiriLocation where
  altitude : ℚ
  datetime : ℤ
  latitude : ℚ
  longitude : ℚ
deriving DecidableEq

/-- One stage of a prediction: a stage label and its trajectory. -/
structure TawhiriPrediction where
  stage : String
  trajectory : List TawhiriLocation
deriving DecidableEq

/-- TawhiriResponse; the metadata and warnings fields are never read by the
client logic and are omitted. -/
structure TawhiriResponse where
  request : TawhiriRequest
  prediction : List TawhiriPrediction
deriving DecidableEq

/-- TawhiriLocation::to_balloon_location: signed longitude, local time, altitude
always present, data marked as coming from a prediction. -/
def TawhiriLocation.to_balloon_location (t : TawhiriLocation) : BalloonLocation :=
  { location :=
      { time := t.datetime,
        x := denormalize_longitude t.longitude,
        y := t.latitude,
        altitude := some t.altitude },
    data := { callsign := none, status := PacketStatus.None } }

/-- The descent-only filter at the end of TawhiriQuery::get (lines 194-208): keep
only the first descent stage, or fail with NoDescentStage. -/
def descent_only_filter (q : TawhiriQuery) (response : TawhiriResponse) :
    Except TawhiriError TawhiriResponse :=
  if q.descent_only then
    match response.prediction.find? (fun stage => stage.stage == "descent") with
    | some stage => Except.ok { response with prediction := [stage] }
    | none => Except.error TawhiriError.NoDescentStage
  else Except.ok response

/-- Stage appending of the stitching step (lines 177-182): append the first
descent stage of the sub-query response, or nothing when it has none. -/
def stitched_prediction (prediction : List TawhiriPrediction) (descent : TawhiriResponse) :
    List TawhiriPrediction :=
  match descent.prediction.find? (fun stage => stage.stage == "descent") with
  | some stage => prediction ++ [stage]
  | none => prediction

/-- The second, descent-only query the stitching step constructs (lines 163-175):
from the given float-end location, with a standard profile at ascent rate 10,
burst altitude equal to the float-end altitude, and the same sea-level descent
rate as the original query. -/
def make_descent_query (q : TawhiriQuery) (float_end_location : BalloonLocation) : TawhiriQuery :=
  TawhiriQuery.new float_end_location.location
    (FlightProfile.new_standard 10 (float_end_location.location.altitude.getD 0)
      q.profile.sea_level_descent_rate)
    q.dataset_time q.version none true none

/-- TawhiriQuery::get on the HTTP-OK path, over an oracle giving the decoded
response of each issued query. The result carries the list of stitching
sub-queries issued below the primary query. fuel bounds the recursion depth of
the stitch (the source recursion is unbounded in principle); none models a
panic (the source unwraps the last float point and the sub-query result) or
exhausted fuel. -/
def tawhiri_get (fetch : TawhiriQuery → TawhiriResponse) :
    ℕ → TawhiriQuery → Option (Except TawhiriError (TawhiriResponse × List TawhiriQuery))
  | 0, _ => none
  | fuel + 1, q =>
    let response := fetch q
    match response.request with
    | TawhiriRequest.FloatProfile =>
      if response.prediction.any (fun stage => stage.stage == "descent") then
        some ((descent_only_filter q response).map (fun r => (r, [])))
      else
        match response.prediction.find? (fun stage => stage.stage == "float") with
        | none => some (Except.error TawhiriError.NoFloatStage)
        | some float_stage =>
          match float_stage.trajectory.getLast? with
          | none => none
          | some float_end_point =>
            let descent_query := make_descent_query q float_end_point.to_balloon_location
            match tawhiri_get fetch fuel descent_query with
            | none => none
            | some (Except.error _) => none
            | some (Except.ok (descent_response, deeper)) =>
              let stitched :=
                { response with
                  prediction := stitched_prediction response.prediction descent_response }
              some ((descent_only_filter q stitched).map (fun r => (r, descent_query :: deeper)))
    | TawhiriRequest.StandardProfile =>
      some ((descent_only_filter q response).map (fun r => (r, [])))

/-- ParseError from src/location/aprs.rs. -/
inductive ParseError
  | InvalidFrame (error frame : String)
  | NoPosition
  | MicEPacketNotCurrent
  | InvalidTimestamp
  | NoAltitudeInComment (comment : String)
  | NoAltitudeInCompressedData
deriving DecidableEq

/-- Feet-to-meters conversion constant M_PER_FT. -/
def M_PER_FT : ℚ := 3048 / 10000

/-- Numeric value of six decimal digit characters. -/
def six_digit_value (d1 d2 d3 d4 d5 d6 : Char) : ℕ :=
  (d1.toNat - 48) * 100000 + (d2.toNat - 48) * 10000 + (d3.toNat - 48) * 1000 +
    (d4.toNat - 48) * 100 + (d5.toNat - 48) * 10 + (d6.toNat - 48)

/-- Match of the regex `/A=(\d{6})` at the head of a character list: the
literal slash, A, equals sign, then exactly six digit characters captured. -/
def match_altitude_at : List Char → Option ℕ
  | '/' :: 'A' :: '=' :: d1 :: d2 :: d3 :: d4 :: d5 :: d6 :: _ =>
    if d1.isDigit && d2.isDigit && d3.isDigit && d4.isDigit && d5.isDigit && d6.isDigit then
      some (six_digit_value d1 d2 d3 d4 d5 d6)
    else none
  | _ => none

/-- Leftmost match of the regex `/A=(\d{6})` in a character list, as a regex
search finds it: try each position from the left. -/
def scan_altitude : List Char → Option ℕ
  | [] => none
  | c :: rest =>
    match match_altitude_at (c :: rest) with
    | some n => some n
    | none => scan_altitude rest

/-- parse_aprs_comment_altitude_feet from src/location/aprs.rs: regex-extract a
six-digit feet value from the free-text comment, or fail with
NoAltitudeInComment carrying the comment. -/
def parse_aprs_comment_altitude_feet (comment : String) : Except ParseError ℕ :=
  match scan_altitude comment.data with
  | some n => Except.ok n
  | none => Except.error (ParseError.NoAltitudeInComment comment)

/-- The compressed-altitude situation of a decoded position payload, as the
altitude-extraction step of from_aprs_frame distinguishes it: a compressed
course-speed-type sub-field holding an altitude, a compressed sub-field holding
something else, or no compressed sub-field at all. -/
inductive AprsCst
  | CompressedAltitude (altitude_feet : ℚ)
  | CompressedOther
  | Uncompressed
  | CompressedNone
deriving DecidableEq

/-- Outcome of a decoding step: a value, an error result returned to the caller,
or an abort of the process (a Rust panic) triggered while holding an error. -/
inductive DecodeOutcome (α : Type)
  | ok (a : α)
  | err (e : ParseError)
  | aborted (e : ParseError)
deriving DecidableEq

/-- The altitude-extraction step of BalloonLocation::from_aprs_frame for a
position payload (src/location/aprs.rs lines 44-57), yielding the altitude in
feet: a compressed altitude sub-field is used when present; a compressed
sub-field of another kind is an error result; otherwise the comment is searched,
and the source unwraps that search, so a comment without the pattern aborts
instead of returning the error. -/
def position_altitude_feet (cst : AprsCst) (comment : String) : DecodeOutcome ℚ :=
  match cst with
  | AprsCst.CompressedAltitude altitude_feet => DecodeOutcome.ok altitude_feet
  | AprsCst.CompressedOther => DecodeOutcome.err ParseError.NoAltitudeInCompressedData
  | AprsCst.Uncompressed | AprsCst.CompressedNone =>
    match parse_aprs_comment_altitude_feet comment with
    | Except.ok n => DecodeOutcome.ok (n : ℚ)
    | Except.error e => DecodeOutcome.aborted e

/-- Convenience constructor for a telemetry record with default data, used by
the concrete instances below. -/
def mkRecord (time : ℤ) (x y : ℚ) (altitude : Option ℚ) : BalloonLocation :=
  { location := { time, x, y, altitude },
    data := { callsign := none, status := PacketStatus.None } }

/-- A sorted two-record track for exercising the order invariant. -/
def c2_track : BalloonTrack :=
  { locations := [mkRecord 0 0 0 (some 100), mkRecord 5 0 0 (some 200)],
    prediction := none, name := "W3EAX-13" }

/-- An out-of-order arrival: its time falls between the two records of c2_track. -/
def c2_new_record : BalloonLocation := mkRecord 3 1 1 (some 150)

/-- A record at time 0. -/
def exA : BalloonLocation := mkRecord 0 0 0 (some 100)

/-- A record at the same coordinates and altitude as exA but five seconds later,
so exA is a time-lag of it. -/
def exB : BalloonLocation := mkRecord 5 0 0 (some 100)

/-- A track whose first record equals exA and whose second record exA time-lags. -/
def c3_track : BalloonTrack :=
  { locations := [exA, exB], prediction := none, name := "W3EAX-13" }

/-- A single-record track containing exA only. -/
def c3_single_track : BalloonTrack :=
  { locations := [exA], prediction := none, name := "W3EAX-13" }

/-- A two-record descending track: altitude falls from 1000 m to 900 m over ten
seconds, so the last ascent rate is -10 m/s and the last altitude 900 m. -/
def c4_track : List BalloonLocation :=
  [mkRecord 0 0 0 (some 1000), mkRecord 10 0 0 (some 900)]

/-- A three-record track whose ascent rates are 10 m/s then -5 m/s. -/
def c5_track : List BalloonLocation :=
  [mkRecord 0 0 0 (some 0), mkRecord 10 0 0 (some 100), mkRecord 20 0 0 (some 50)]

/-- A two-record track falling from 2000 m to 1000 m over ten seconds: its only
ascent rate, -100 m/s, is far below the freefall model prediction of about
-6.06 m/s at 1000 m, much farther than the model uncertainty of about 1.21. -/
def c6_track : List BalloonLocation :=
  [mkRecord 0 0 0 (some 2000), mkRecord 10 0 0 (some 1000)]

/-- A float-profile flight plan: ascent 5 m/s, float at 25000 m for an hour,
burst 30000 m, sea-level descent 9 m/s. -/
def c1_profile : FlightProfile :=
  FlightProfile.new 5 (some 25000) (some 3600) none 30000 9

/-- A float-profile query from 1000 m altitude at time 0 with no explicit float
start, for the float start derivation. -/
def c7_query : TawhiriQuery :=
  TawhiriQuery.new { time := 0, x := -77, y := 39, altitude := some 1000 }
    c1_profile none none none false none

/-- A float-profile query from the ground at time 0. -/
def c1_query : TawhiriQuery :=
  TawhiriQuery.new { time := 0, x := -77, y := 39, altitude := some 0 }
    c1_profile none none none false none

/-- The last (and only) trajectory point of the stubbed float stage. -/
def c1_float_point : TawhiriLocation :=
  { altitude := 25000, datetime := 3600, latitude := 39, longitude := 283 }

/-- A stubbed response with ascent and float stages and no descent stage. -/
def c1_float_response : TawhiriResponse :=
  { request := TawhiriRequest.FloatProfile,
    prediction :=
      [{ stage := "ascent", trajectory := [{ altitude := 100, datetime := 0, latitude := 39, longitude := 283 }] },
       { stage := "float", trajectory := [c1_float_point] }] }

/-- The descent stage the stubbed secondary query returns. -/
def c1_descent_stage : TawhiriPrediction :=
  { stage := "descent",
    trajectory := [{ altitude := 0, datetime := 7200, latitude := 39, longitude := 283 }] }

/-- A stubbed standard-profile response holding only the descent stage. -/
def c1_descent_response : TawhiriResponse :=
  { request := TawhiriRequest.StandardProfile, prediction := [c1_descent_stage] }

/-- A stubbed service: descent-only queries get the descent response, all others
the ascent-and-float response. -/
def c1_fetch : TawhiriQuery → TawhiriResponse :=
  fun query => if query.descent_only then c1_descent_response else c1_float_response

/-- A stubbed service whose response has an ascent stage only: neither descent
nor float. -/
def c1_ascent_only_fetch : TawhiriQuery → TawhiriResponse :=
  fun _ =>
    { request := TawhiriRequest.FloatProfile,
      prediction :=
        [{ stage := "ascent", trajectory := [{ altitude := 100, datetime := 0, latitude := 39, longitude := 283 }] }] }

/-- A packet with no altitude. -/
def c10_packet : BalloonLocation := mkRecord 0 0 0 none

/-- An existing record with the same time and coordinates as c10_packet and no
altitude either. -/
def c10_existing : BalloonLocation := mkRecord 0 0 0 none

/-- A location at the same coordinates as c10_packet but a different time and a
present altitude. -/
def c10_other : Location := { time := 7, x := 0, y := 0, altitude := some 100 }

theorem mem_insertByTime {x z : BalloonLocation} :
    ∀ {l : List BalloonLocation}, z ∈ insertByTime x l → z = x ∨ z ∈ l := by
  intro l
  induction l with
  | nil => intro h; simp [insertByTime] at h; exact Or.inl h
  | cons y ys ih =>
    intro h
    by_cases hle : y.location.time ≤ x.location.time
    · rw [insertByTime, if_pos hle] at h
      rcases List.mem_cons.mp h with h | h
      · exact Or.inr (h ▸ List.mem_cons_self y ys)
      · rcases ih h with h | h
        · exact Or.inl h
        · exact Or.inr (List.mem_cons_of_mem y h)
    · rw [insertByTime, if_neg hle] at h
      rcases List.mem_cons.mp h with h | h
      · exact Or.inl h
      · exact Or.inr h

theorem sortedByTime_insertByTime {x : BalloonLocation} :
    ∀ {l : List BalloonLocation}, sortedByTime l → sortedByTime (insertByTime x l) := by
  intro l
  induction l with
  | nil => intro _; simp [insertByTime, sortedByTime]
  | cons y ys ih =>
    intro h
    rcases List.pairwise_cons.mp h with ⟨hy, hys⟩
    by_cases hle : y.location.time ≤ x.location.time
    · rw [insertByTime, if_pos hle]
      refine List.pairwise_cons.mpr ⟨?_, ih hys⟩
      intro b hb
      rcases mem_insertByTime hb with hb | hb
      · exact hb ▸ hle
      · exact hy b hb
    · rw [insertByTime, if_neg hle]
      have hxy : x.location.time ≤ y.location.time := le_of_not_le hle
      refine List.pairwise_cons.mpr ⟨?_, h⟩
      intro b hb
      rcases List.mem_cons.mp hb with hb | hb
      · exact hb ▸ hxy
      · exact le_trans hxy (hy b hb)

theorem sortedByTime_sortByTime : ∀ (l : List BalloonLocation), sortedByTime (sortByTime l) := by
  intro l
  induction l with
  | nil => simp [sortByTime, sortedByTime]
  | cons y ys ih => exact sortedByTime_insertByTime ih

theorem le_getLast_of_sortedByTime :
    ∀ {l : List BalloonLocation} {x : BalloonLocation}, sortedByTime l →
      l.getLast? = some x → ∀ y ∈ l, y.location.time ≤ x.location.time := by
  intro l
  induction l with
  | nil => intro x _ hx; simp at hx
  | cons a t ih =>
    intro x h hx y hy
    rcases List.pairwise_cons.mp h with ⟨ha, ht⟩
    cases t with
    | nil =>
      simp at hx
      rcases List.mem_singleton.mp hy with rfl
      exact hx ▸ le_refl _
    | cons b t2 =>
      rw [List.getLast?_cons_cons] at hx
      have hxmem : x ∈ b :: t2 := List.mem_of_mem_getLast? hx
      rcases List.mem_cons.mp hy with rfl | hy
      · exact ha x hxmem
      · exact ih ht hx y hy

/-- C2: for every track, after every push of a record into the track (including
out-of-order arrivals), the location sequence is sorted ascending by time:
pushing into a time-sorted track yields a time-sorted track. -/
theorem c2_push_sorted (t : BalloonTrack) (r : BalloonLocation)
    (h : sortedByTime t.locations) : sortedByTime ((t.push r).locations) := by
  unfold BalloonTrack.push
  by_cases hc : t.contains r
  · rw [if_pos hc]
    exact h
  · rw [if_neg hc]
    rcases hlast : t.locations.getLast? with _ | current
    · have hnil : t.locations = [] := List.getLast?_eq_none_iff.mp hlast
      simp [hnil, sortedByTime]
    · simp only [hlast]
      by_cases hlt : r.location.time < current.location.time
      · simp only [decide_eq_true hlt, if_true]
        exact sortedByTime_sortByTime _
      · simp only [decide_eq_false hlt, if_false]
        refine (List.pairwise_append).mpr ⟨h, ?_, ?_⟩
        · simp [sortedByTime]
        · intro a ha b hb
          rcases List.mem_singleton.mp hb with rfl
          exact le_trans (le_getLast_of_sortedByTime h hlast a ha) (le_of_not_lt hlt)

/-- C2 witness: pushing an out-of-order record into a concrete sorted track
leaves the track sorted. -/
theorem c2_witness : sortedByTime ((c2_track.push c2_new_record).locations) :=
  c2_push_sorted c2_track c2_new_record (by decide)

theorem classify_foldl_stays_matched {p : BalloonLocation} :
    ∀ (l : List BalloonLocation) (st : PacketStatus),
      (st = PacketStatus.Duplicate ∨ st = PacketStatus.TimeLaggedDuplicate) →
      (l.foldl (classify_step p) st = PacketStatus.Duplicate ∨
        l.foldl (classify_step p) st = PacketStatus.TimeLaggedDuplicate) := by
  intro l
  induction l with
  | nil => intro st hst; exact hst
  | cons e rest ih =>
    intro st hst
    refine ih (classify_step p st e) ?_
    unfold classify_step
    by_cases h1 : recordEq p e
    · simp [h1]
    · by_cases h2 : time_lag_of p.location e.location
      · simp [h1, h2]
      · simpa [h1, h2] using hst

theorem classify_foldl_matched {p : BalloonLocation} :
    ∀ (l : List BalloonLocation) (st : PacketStatus),
      (∃ e ∈ l, recordEq p e = true) →
      (l.foldl (classify_step p) st = PacketStatus.Duplicate ∨
        l.foldl (classify_step p) st = PacketStatus.TimeLaggedDuplicate) := by
  intro l
  induction l with
  | nil => intro st h; simp at h
  | cons e rest ih =>
    intro st h
    by_cases h1 : recordEq p e
    · refine classify_foldl_stays_matched rest (classify_step p st e) ?_
      left
      simp [classify_step, h1]
    · rcases h with ⟨f, hf, hfeq⟩
      rcases List.mem_cons.mp hf with rfl | hf
      · exact absurd hfeq (by simpa using h1)
      · exact ih (classify_step p st e) ⟨f, hf, hfeq⟩

theorem classify_foldl_duplicate_of_no_lag {p : BalloonLocation} :
    ∀ (l : List BalloonLocation),
      (∀ e ∈ l, time_lag_of p.location e.location = false) →
      l.foldl (classify_step p) PacketStatus.Duplicate = PacketStatus.Duplicate := by
  intro l
  induction l with
  | nil => intro _; rfl
  | cons e rest ih =>
    intro hnl
    have he : classify_step p PacketStatus.Duplicate e = PacketStatus.Duplicate := by
      unfold classify_step
      by_cases h1 : recordEq p e
      · simp [h1]
      · simp [h1, hnl e (List.mem_cons_self e rest)]
    rw [List.foldl_cons, he]
    exact ih (fun f hf => hnl f (List.mem_cons_of_mem e hf))

theorem classify_foldl_eq_duplicate {p : BalloonLocation} :
    ∀ (l : List BalloonLocation) (st : PacketStatus),
      (∀ e ∈ l, time_lag_of p.location e.location = false) →
      (∃ e ∈ l, recordEq p e = true) →
      l.foldl (classify_step p) st = PacketStatus.Duplicate := by
  intro l
  induction l with
  | nil => intro st _ h; simp at h
  | cons e rest ih =>
    intro st hnl h
    by_cases h1 : recordEq p e
    · have he : classify_step p st e = PacketStatus.Duplicate := by simp [classify_step, h1]
      rw [List.foldl_cons, he]
      exact classify_foldl_duplicate_of_no_lag rest
        (fun f hf => hnl f (List.mem_cons_of_mem e hf))
    · rcases h with ⟨f, hf, hfeq⟩
      rcases List.mem_cons.mp hf with rfl | hf
      · exact absurd hfeq (by simpa using h1)
      · have he : classify_step p st e = st := by
          simp [classify_step, h1, hnl e (List.mem_cons_self e rest)]
        rw [List.foldl_cons, he]
        exact ih st (fun f hf => hnl f (List.mem_cons_of_mem e hf)) ⟨f, hf, hfeq⟩

theorem classify_foldl_ne_tld {p : BalloonLocation} :
    ∀ (l : List BalloonLocation) (st : PacketStatus),
      (∀ e ∈ l, time_lag_of p.location e.location = false) →
      st ≠ PacketStatus.TimeLaggedDuplicate →
      l.foldl (classify_step p) st ≠ PacketStatus.TimeLaggedDuplicate := by
  intro l
  induction l with
  | nil => intro st _ hst; exact hst
  | cons e rest ih =>
    intro st hnl hst
    refine ih (classify_step p st e) (fun f hf => hnl f (List.mem_cons_of_mem e hf)) ?_
    unfold classify_step
    by_cases h1 : recordEq p e
    · simp [h1]
    · simpa [h1, hnl e (List.mem_cons_self e rest)] using hst

theorem contains_iff_exists {t : BalloonTrack} {p : BalloonLocation} :
    t.contains p = true ↔ ∃ e ∈ t.locations, recordEq p e = true := by
  simp [BalloonTrack.contains, List.any_eq_true]

/-- C3 counterexample: the record exA is tolerance-equal to the first record of
c3_track (indeed identical to it), yet the classification loop marks it
TimeLaggedDuplicate, not Duplicate, because exA also time-lags the later record
exB and the last matching comparison wins. -/
theorem c3_counterexample :
    c3_track.contains exA = true ∧
    recordEq exA exA = true ∧
    classify_status c3_track.locations exA = PacketStatus.TimeLaggedDuplicate ∧
    classify_status c3_track.locations exA ≠ PacketStatus.Duplicate := by
  norm_num [BalloonTrack.contains, classify_status, classify_step, c3_track, exA, exB,
    mkRecord, recordEq, locEq, time_lag_of, approx_equal, ratAbs]
  decide

/-- C3 (amended): pushing a record that is tolerance-equal to a record already
in the track leaves the locations unchanged (the push is a no-op), and the
ingestion engine drops the record rather than inserting it; the record is
classified Duplicate provided it is not also a time-lag of any record of the
track (otherwise a later matching record can leave it classified
TimeLaggedDuplicate, still dropped). -/
theorem c3_dedup_idempotent (t : BalloonTrack) (p : BalloonLocation)
    (hc : t.contains p = true) :
    (t.push p).locations = t.locations ∧
    (ingest t p).locations = t.locations ∧
    ((∀ e ∈ t.locations, time_lag_of p.location e.location = false) →
      classify_status t.locations p = PacketStatus.Duplicate) := by
  refine ⟨?_, ?_, ?_⟩
  · unfold BalloonTrack.push
    rw [if_pos hc]
  · unfold ingest
    rcases classify_foldl_matched t.locations p.data.status (contains_iff_exists.mp hc) with
      hd | hd
    · simp only [classify_status] at *
      rw [hd]
    · simp only [classify_status] at *
      rw [hd]
  · intro hnl
    exact classify_foldl_eq_duplicate t.locations p.data.status hnl (contains_iff_exists.mp hc)

/-- C3 witness: pushing exA into the single-record track already holding exA is
a no-op for push and for ingestion, and is classified Duplicate. -/
theorem c3_witness :
    (c3_single_track.push exA).locations = c3_single_track.locations ∧
    (ingest c3_single_track exA).locations = c3_single_track.locations ∧
    classify_status c3_single_track.locations exA = PacketStatus.Duplicate := by
  obtain ⟨h1, h2, h3⟩ := c3_dedup_idempotent c3_single_track exA (by
    norm_num [BalloonTrack.contains, c3_single_track, exA, mkRecord, recordEq, locEq,
      approx_equal, ratAbs])
  refine ⟨h1, h2, h3 ?_⟩
  intro e he
  simp only [c3_single_track] at he
  rcases List.mem_singleton.mp he with rfl
  norm_num [time_lag_of, exA, mkRecord]

/-- C10: a record with no altitude is never in the time-lag relation with any
other record and is never classified TimeLaggedDuplicate, even when its
coordinates match an existing record within tolerance and the timestamps
differ; two records that both lack altitude and match in coordinates and
timestamp are still equal, and such a record already present in the track makes
the incoming one classified Duplicate. -/
theorem c10_absent_altitude (p e : BalloonLocation) (track : List BalloonLocation)
    (hp : p.location.altitude = none) (hst : p.data.status = PacketStatus.None) :
    (∀ other : Location, time_lag_of p.location other = false) ∧
    classify_status track p ≠ PacketStatus.TimeLaggedDuplicate ∧
    (e.location.altitude = none → p.location.time = e.location.time →
      approx_equal p.location.x e.location.x 4 = true →
      approx_equal p.location.y e.location.y 4 = true →
      locEq p.location e.location = true) ∧
    (recordEq p e = true → e ∈ track → classify_status track p = PacketStatus.Duplicate) := by
  have hlag : ∀ other : Location, time_lag_of p.location other = false := by
    intro other
    cases hoa : other.altitude <;> simp [time_lag_of, hp, hoa]
  refine ⟨hlag, ?_, ?_, ?_⟩
  · refine classify_foldl_ne_tld track p.data.status (fun f _ => hlag f.location) ?_
    rw [hst]
    decide
  · intro h1 h2 h3 h4
    simp [locEq, hp, h1, h2, h3, h4]
  · intro heq hmem
    exact classify_foldl_eq_duplicate track p.data.status (fun f _ => hlag f.location)
      ⟨e, hmem, heq⟩

/-- C10 witness: the altitude-free packet is not a time-lag of a location at the
same coordinates and a different time, cannot be classified TimeLaggedDuplicate,
equals the altitude-free record at the same time and coordinates, and is
classified Duplicate against the track holding that record. -/
theorem c10_witness :
    time_lag_of c10_packet.location c10_other = false ∧
    classify_status [c10_existing] c10_packet ≠ PacketStatus.TimeLaggedDuplicate ∧
    locEq c10_packet.location c10_existing.location = true ∧
    classify_status [c10_existing] c10_packet = PacketStatus.Duplicate := by
  obtain ⟨h1, h2, h3, h4⟩ := c10_absent_altitude c10_packet c10_existing [c10_existing] rfl rfl
  refine ⟨h1 c10_other, h2, h3 rfl rfl ?_ ?_, h4 ?_ (List.mem_singleton.mpr rfl)⟩
  · norm_num [approx_equal, ratAbs, c10_packet, c10_existing, mkRecord]
  · norm_num [approx_equal, ratAbs, c10_packet, c10_existing, mkRecord]
  · norm_num [recordEq, locEq, approx_equal, ratAbs, c10_packet, c10_existing, mkRecord]

/-- C4: on a concrete descending track with last ascent rate -10 m/s and last
altitude 900 m the source computes a time to ground of 11 milliseconds (it
divides the rate by the altitude), while the linear extrapolation the spec
states gives 90000 milliseconds (the altitude divided by the rate); with fewer
than two altitude samples both are undefined. -/
theorem c4_inverted_extrapolation :
    estimated_time_to_ground c4_track = some 11 ∧
    spec_estimated_time_to_ground c4_track = some 90000 ∧
    estimated_time_to_ground [mkRecord 0 0 0 (some 1000)] = none := by
  norm_num [estimated_time_to_ground, spec_estimated_time_to_ground, c4_track, mkRecord,
    descending, ascent_rates, with_altitude, intervals, ascents, altitudes, f64_as_i64,
    List.filterMap_cons, List.filterMap_nil]

/-- C5 counterexample: on an empty track there are no ascent-rate samples, yet
ascending and descending are both vacuously true, where the claim requires
false with fewer than two samples. -/
theorem c5_counterexample :
    ascending ([] : List BalloonLocation) = true ∧
    descending ([] : List BalloonLocation) = true ∧
    ascent_rates ([] : List BalloonLocation) = [] := by
  simp [ascending, descending, ascent_rates, with_altitude, ascents, intervals]

/-- C5 (amended): ascending is true iff the last min(2, n) ascent-rate samples
are all above 0.2 m/s and descending iff they are all below 0.2 m/s; with two
or more samples this tests the last two, with exactly one sample it tests that
sample alone, and with no samples both are vacuously true. -/
theorem c5_last_two_rates (locs : List BalloonLocation) :
    (ascent_rates locs = [] → ascending locs = true ∧ descending locs = true) ∧
    (∀ r : ℚ, ascent_rates locs = [r] →
      ((ascending locs = true) ↔ (1/5 : ℚ) < r) ∧
      ((descending locs = true) ↔ r < (1/5 : ℚ))) ∧
    (∀ (l : List ℚ) (s r : ℚ), ascent_rates locs = l ++ [s, r] →
      ((ascending locs = true) ↔ ((1/5 : ℚ) < r ∧ (1/5 : ℚ) < s)) ∧
      ((descending locs = true) ↔ (r < (1/5 : ℚ) ∧ s < (1/5 : ℚ)))) := by
  refine ⟨?_, ?_, ?_⟩
  · intro h
    simp [ascending, descending, h]
  · intro r h
    simp [ascending, descending, h]
  · intro l s r h
    have hrev : (l ++ [s, r]).reverse = r :: s :: l.reverse := by simp
    constructor
    · rw [ascending, h, hrev]
      simp [and_assoc]
    · rw [descending, h, hrev]
      simp [and_assoc]

/-- C5 witness: on the concrete track whose ascent rates are 10 then -5 m/s,
ascending and descending are each equivalent to the last two rates being on the
corresponding side of 0.2 m/s. -/
theorem c5_witness :
    ((ascending c5_track = true) ↔ ((1/5 : ℚ) < -5 ∧ (1/5 : ℚ) < 10)) ∧
    ((descending c5_track = true) ↔ ((-5 : ℚ) < 1/5 ∧ (10 : ℚ) < 1/5)) :=
  (c5_last_two_rates c5_track).2.2 [] 10 (-5) (by
    norm_num [ascent_rates, c5_track, mkRecord, with_altitude, ascents, intervals,
      List.filterMap_cons, List.filterMap_nil])

theorem c6_track_ne : c6_track ≠ [] := by simp [c6_track]

/-- C6 (amended): a nonempty track is classified as in freefall iff its last
record carries an altitude, the track is descending, and the signed difference
between the last observed ascent rate and the freefall model prediction at the
last altitude is less than the model uncertainty; in particular a last rate far
below the predicted rate (a large negative difference) IS classified as
freefall, since the source does not take the absolute value. -/
theorem c6_falling_signed (locs : List BalloonLocation) (h : locs ≠ []) :
    (falling locs h).isSome = true ↔
      ((locs.getLast h).location.altitude.isSome = true ∧ descending locs = true ∧
        ∃ r, (ascent_rates locs).getLast? = some r ∧
          r - (estimate_freefall (locs.getLast h)).ascent_rate <
            (estimate_freefall (locs.getLast h)).ascent_rate_uncertainty) := by
  unfold falling
  by_cases h1 : (locs.getLast h).location.altitude.isSome && descending locs
  · rw [if_pos h1]
    have h1x := h1
    simp only [Bool.and_eq_true] at h1x
    rcases h1x with ⟨ha, hd⟩
    rcases h2 : (ascent_rates locs).getLast? with _ | r
    · simp [ha, hd, h2]
    · by_cases h3 : r - (estimate_freefall (locs.getLast h)).ascent_rate <
          (estimate_freefall (locs.getLast h)).ascent_rate_uncertainty
      · simp only [if_pos h3, Option.isSome_some]
        exact ⟨fun _ => ⟨ha, hd, r, rfl, h3⟩, fun _ => trivial⟩
      · simp only [if_neg h3, Option.isSome_none]
        constructor
        · intro hfalse
          exact absurd hfalse (by decide)
        · rintro ⟨_, _, r2, hr2, hcmp⟩
          rcases Option.some.inj hr2 with rfl
          exact absurd hcmp h3
  · rw [if_neg h1]
    simp only [Option.isSome_none]
    constructor
    · intro hfalse
      exact absurd hfalse (by decide)
    · rintro ⟨ha, hd, _⟩
      exact absurd (by simp [ha, hd]) h1

/-- C6 counterexample: the track falling from 2000 m to 1000 m at 100 m/s is
classified as in freefall although the observed rate differs from the model
prediction by about 94 m/s, far more than the model uncertainty of about
1.21 m/s: the absolute difference bound of the claim fails on the source. -/
theorem c6_counterexample :
    (falling c6_track c6_track_ne).isSome = true ∧
    (ascent_rates c6_track).getLast? = some (-100) ∧
    descending c6_track = true ∧
    ¬ ratAbs ((-100 : ℚ) - (FreefallEstimate.new 1000).ascent_rate) <
        (FreefallEstimate.new 1000).ascent_rate_uncertainty := by
  have hlast : c6_track.getLast c6_track_ne = mkRecord 10 0 0 (some 1000) := rfl
  constructor
  · unfold falling
    rw [hlast]
    norm_num [descending, ascent_rates, with_altitude, intervals, ascents, c6_track,
      mkRecord, estimate_freefall, FreefallEstimate.new, ratAbs,
      List.filterMap_cons, List.filterMap_nil]
  · refine ⟨?_, ?_, ?_⟩ <;>
      norm_num [descending, ascent_rates, with_altitude, intervals, ascents, c6_track,
        mkRecord, FreefallEstimate.new, ratAbs, List.filterMap_cons, List.filterMap_nil]

/-- C6 witness: the amended characterization applied to the concrete track shows
it classified as in freefall. -/
theorem c6_witness : (falling c6_track c6_track_ne).isSome = true := by
  refine (c6_falling_signed c6_track c6_track_ne).mpr ⟨rfl, ?_, -100, ?_, ?_⟩
  · norm_num [descending, ascent_rates, with_altitude, intervals, ascents, c6_track,
      mkRecord, List.filterMap_cons, List.filterMap_nil]
  · norm_num [ascent_rates, with_altitude, intervals, ascents, c6_track,
      mkRecord, List.filterMap_cons, List.filterMap_nil]
  · rw [show c6_track.getLast c6_track_ne = mkRecord 10 0 0 (some 1000) from rfl]
    norm_num [estimate_freefall, FreefallEstimate.new, ratAbs, mkRecord]

/-- C7: for the concrete float-profile query launched at 1000 m toward a float
altitude of 25000 m at 5 m/s with no explicit float start, the source derives a
float start of launch_time + 24800 s, because the missing parentheses divide
only the launch altitude by the ascent rate; the formula of the spec gives
launch_time + 4800 s. The stop_datetime is the derived float start plus the
float duration, as the spec states. -/
theorem c7_float_start_precedence :
    derived_float_start c7_query = 24800 ∧
    spec_derived_float_start c7_query = 4800 ∧
    float_start_time c7_query = 24800 ∧
    stop_datetime c7_query = some (float_start_time c7_query + 3600) := by
  norm_num [derived_float_start, spec_derived_float_start, float_start_time, stop_datetime,
    effective_float_altitude, c7_query, TawhiriQuery.new, c1_profile, FlightProfile.new,
    f64_as_i64]

/-- C8: a position payload with no compressed-altitude sub-field whose comment
contains no six-digit /A= value makes the decoder abort on an unwrap while
holding the NoAltitudeInComment error, instead of returning it as an error
result; the helper itself does return the error, and a comment carrying the
pattern parses. -/
theorem c8_decoder_aborts :
    position_altitude_feet AprsCst.Uncompressed "hello" =
      DecodeOutcome.aborted (ParseError.NoAltitudeInComment "hello") ∧
    position_altitude_feet AprsCst.Uncompressed "hello" ≠
      DecodeOutcome.err (ParseError.NoAltitudeInComment "hello") ∧
    parse_aprs_comment_altitude_feet "hello" =
      Except.error (ParseError.NoAltitudeInComment "hello") ∧
    parse_aprs_comment_altitude_feet "/A=053614|!g|" = Except.ok 53614 := by
  refine ⟨rfl, ?_, rfl, rfl⟩
  intro hcontra
  rw [show position_altitude_feet AprsCst.Uncompressed "hello" =
      DecodeOutcome.aborted (ParseError.NoAltitudeInComment "hello") from rfl] at hcontra
  simp at hcontra

/-- C9 counterexample: at the left endpoint -180 the round trip is not the
identity: normalization adds 360 giving exactly 180, which denormalization
leaves unchanged. -/
theorem c9_counterexample :
    denormalize_longitude (normalize_longitude (-180)) = 180 ∧
    denormalize_longitude (normalize_longitude (-180)) ≠ -180 := by
  norm_num [normalize_longitude, denormalize_longitude]

/-- C9 (amended): for every longitude in the half-open interval (-180, 180],
normalizing for the query (add 360 when negative) and then denormalizing the
response (subtract 360 when above 180) is the identity; the left endpoint -180
maps to 180, the same meridian with the opposite sign. -/
theorem c9_longitude_roundtrip (x : ℚ) (h1 : -180 < x) (h2 : x ≤ 180) :
    denormalize_longitude (normalize_longitude x) = x := by
  unfold normalize_longitude denormalize_longitude
  by_cases hx : x < 0
  · rw [if_pos hx, if_pos (by linarith)]
    ring
  · rw [if_neg hx, if_neg (by linarith)]

/-- C9 witness: the round trip at -77.5 degrees. -/
theorem c9_witness : denormalize_longitude (normalize_longitude (-155/2)) = -155/2 :=
  c9_longitude_roundtrip (-155/2) (by norm_num) (by norm_num)

/-- C1: when a query issued with the float profile returns a response with no
descent stage, the client issues exactly one second, descent-only query from
the last point of the float stage with a standard profile at the same
sea-level descent rate, and appends that sub-query descent stage to the first
response; when the first response has no float stage either, the client fails
with NoFloatStage. -/
theorem c1_float_stitching (fetch : TawhiriQuery → TawhiriResponse) (q : TawhiriQuery)
    (hprofile : (fetch q).request = TawhiriRequest.FloatProfile)
    (hnodescent : (fetch q).prediction.any (fun stage => stage.stage == "descent") = false)
    (hq : q.descent_only = false) :
    (∀ (float_stage : TawhiriPrediction) (float_end_point : TawhiriLocation)
        (descent_stage : TawhiriPrediction),
      (fetch q).prediction.find? (fun stage => stage.stage == "float") = some float_stage →
      float_stage.trajectory.getLast? = some float_end_point →
      (fetch (make_descent_query q float_end_point.to_balloon_location)).request =
        TawhiriRequest.StandardProfile →
      (fetch (make_descent_query q float_end_point.to_balloon_location)).prediction.find?
          (fun stage => stage.stage == "descent") = some descent_stage →
      tawhiri_get fetch 2 q =
        some (Except.ok
          ({ fetch q with prediction := (fetch q).prediction ++ [descent_stage] },
            [make_descent_query q float_end_point.to_balloon_location])) ∧
      (make_descent_query q float_end_point.to_balloon_location).descent_only = true ∧
      (make_descent_query q float_end_point.to_balloon_location).start =
        float_end_point.to_balloon_location.location ∧
      (make_descent_query q float_end_point.to_balloon_location).profile =
        FlightProfile.new_standard 10 float_end_point.altitude
          q.profile.sea_level_descent_rate) ∧
    ((fetch q).prediction.find? (fun stage => stage.stage == "float") = none →
      tawhiri_get fetch 2 q = some (Except.error TawhiriError.NoFloatStage)) := by
  constructor
  · intro float_stage float_end_point descent_stage hfind hlastpt hsubreq hsubfind
    have hdspred := List.find?_some hsubfind
    have hsubdo : (make_descent_query q float_end_point.to_balloon_location).descent_only =
        true := rfl
    have hrec : tawhiri_get fetch 1 (make_descent_query q float_end_point.to_balloon_location) =
        some (Except.ok
          ({ fetch (make_descent_query q float_end_point.to_balloon_location) with
              prediction := [descent_stage] }, [])) := by
      show tawhiri_get fetch (0 + 1) _ = _
      rw [tawhiri_get]
      simp only [hsubreq, descent_only_filter, hsubdo, if_true, hsubfind, Except.map]
    have hgoal : tawhiri_get fetch 2 q =
        some (Except.ok
          ({ fetch q with prediction := (fetch q).prediction ++ [descent_stage] },
            [make_descent_query q float_end_point.to_balloon_location])) := by
      show tawhiri_get fetch (1 + 1) q = _
      rw [tawhiri_get]
      simp only [hprofile, hnodescent, Bool.false_eq_true, if_false, hfind, hlastpt, hrec,
        stitched_prediction, descent_only_filter, hq, Bool.false_eq_true, if_false,
        Except.map]
      have hfind_one : List.find? (fun stage => stage.stage == "descent") [descent_stage] =
          some descent_stage := by
        simp [List.find?_cons, hdspred]
      rw [hfind_one]
    exact ⟨hgoal, hsubdo, rfl, rfl⟩
  · intro hfind
    show tawhiri_get fetch (1 + 1) q = _
    rw [tawhiri_get]
    simp only [hprofile, hnodescent, Bool.false_eq_true, if_false, hfind]

/-- C1 witness: on the stubbed service whose first response has only ascent and
float stages, the client returns the first response with the descent stage of
the secondary query appended and issues exactly that one sub-query; on the
stubbed service whose response has only an ascent stage, the client fails with
NoFloatStage. -/
theorem c1_witness :
    tawhiri_get c1_fetch 2 c1_query =
      some (Except.ok
        ({ c1_fetch c1_query with
            prediction := (c1_fetch c1_query).prediction ++ [c1_descent_stage] },
          [make_descent_query c1_query c1_float_point.to_balloon_location])) ∧
    tawhiri_get c1_ascent_only_fetch 2 c1_query =
      some (Except.error TawhiriError.NoFloatStage) := by
  constructor
  · exact ((c1_float_stitching c1_fetch c1_query rfl rfl rfl).1
      { stage := "float", trajectory := [c1_float_point] } c1_float_point c1_descent_stage
      rfl rfl rfl rfl).1
  · exact (c1_float_stitching c1_ascent_only_fetch c1_query rfl rfl rfl).2 rfl

end PacketRaven
